import Mathlib

set_option maxRecDepth 4000

/-!
Shallow embedding of `pastpaper_handler.py` (rag-study-assistant):
the question segmenter (`PastPaperProcessor.extract_questions`), the
session state machine (`PastPaperSession`), and the dialogue router
(`EnhancedPastPaperChain`).  Python strings are embedded as `List Char`
or `String`, dicts as association lists with Python insertion-order
semantics, machine-external capabilities (the LLM chain) as oracle
functions `String → Option String` where `none` models a raised
exception.
-/

namespace RagStudy

/-- Python `\s` / `str.strip()` whitespace over the ASCII range used here:
space, tab, newline, carriage return, vertical tab, form feed. -/
def isPySpace (c : Char) : Bool :=
  c = ' ' || c = '\t' || c = '\n' || c = '\r' || c = '\x0b' || c = '\x0c'

/-- Python `str.strip()` on a character list. -/
def pyStrip (l : List Char) : List Char :=
  ((l.dropWhile isPySpace).reverse.dropWhile isPySpace).reverse

/-- Python `str.strip()` on a `String`. -/
def pyStripStr (s : String) : String :=
  String.mk (pyStrip s.toList)

/-- `pat.isPrefixOf l` for char lists, kept as a plain Bool function. -/
def listStartsWith : List Char → List Char → Bool
  | [], _ => true
  | _ :: _, [] => false
  | p :: ps, c :: cs => p = c && listStartsWith ps cs

/-- Python dict upsert `d[k] = v`: updates in place if the key exists,
otherwise appends (Python dicts preserve insertion order). -/
def dictInsert (d : List (Nat × String)) (k : Nat) (v : String) : List (Nat × String) :=
  match d with
  | [] => [(k, v)]
  | (k', v') :: rest =>
      if k' = k then (k', v) :: rest else (k', v') :: dictInsert rest k v

/-- Python `k in d`. -/
def dictContains (d : List (Nat × String)) (k : Nat) : Bool :=
  match d with
  | [] => false
  | (k', _) :: rest => k' = k || dictContains rest k

/-- Python `d[k]` (as an `Option`). -/
def dictGet (d : List (Nat × String)) (k : Nat) : Option String :=
  match d with
  | [] => none
  | (k', v) :: rest => if k' = k then some v else dictGet rest k

/-! ### The question-marker scanner

`extract_questions` uses `re.finditer` with the multiline+dotall pattern

  `^\s*(?:Q(?:uestion)?\s*)?(?:\((\d+)\)|(\d+)[.:)])\s+(.*?)`
  `(?=^\s*(?:Q(?:uestion)?\s*)?(?:\(\d+\)|\d+[.:)])\s+|\Z)`

For this pattern the backtracking search is deterministic: the leading
`\s*`, the inner `\s*`/`\s+` and `\d+` are all followed by tokens
disjoint from their own character classes, and the lazy body always
terminates at the first line-start position where the lookahead header
matches (or at end of input).  The scanner below implements exactly that
match procedure over `List Char`. -/

/-- Greedy `\d+`: one or more leading digits and the remaining input. -/
def parseDigits (l : List Char) : Option (Nat × List Char) :=
  match l.span Char.isDigit with
  | (ds, rest) => if ds = [] then none else some (ds.foldl (fun n c => n * 10 + (c.toNat - 48)) 0, rest)

/-- The marker proper: `\((\d+)\)` or `(\d+)[.:)]`. -/
def parseNumMarker (l : List Char) : Option (Nat × List Char) :=
  match l with
  | '(' :: rest =>
      match parseDigits rest with
      | some (n, ')' :: rest') => some (n, rest')
      | _ => none
  | _ =>
      match parseDigits l with
      | some (n, c :: rest') =>
          if c = '.' || c = ':' || c = ')' then some (n, rest') else none
      | _ => none

/-- `(?:Q(?:uestion)?\s*)?` followed by the marker.  When the input starts
with `Q` the optional group is committed (skipping it can never succeed,
since the marker needs a digit or `(`). -/
def parseHeaderCore (l : List Char) : Option (Nat × List Char) :=
  match l with
  | 'Q' :: rest =>
      let rest2 := if listStartsWith "uestion".toList rest then rest.drop 7 else rest
      parseNumMarker (rest2.dropWhile isPySpace)
  | _ => parseNumMarker l

/-- Full header at a line-start position: `\s*` + optional `Q`/`Question`
piece + marker + required `\s+`.  Returns the parsed number, the input
after the whitespace run, and whether that position is a line start
(i.e. the whitespace run ended with a newline). -/
def tryHeader (l : List Char) : Option (Nat × List Char × Bool) :=
  match parseHeaderCore (l.dropWhile isPySpace) with
  | none => none
  | some (n, afterMarker) =>
      let ws := afterMarker.takeWhile isPySpace
      if ws = [] then none
      else some (n, afterMarker.dropWhile isPySpace, ws.getLast? = some '\n')

/-- The lazy body `(.*?)` with lookahead: consume characters until the
current position is a line start where a header matches, or input ends.
Returns (body, rest). -/
def takeBody : List Char → Bool → List Char × List Char
  | l, atStart =>
      if atStart && (tryHeader l).isSome then ([], l)
      else
        match l with
        | [] => ([], [])
        | c :: cs =>
            let (t, r) := takeBody cs (c = '\n')
            (c :: t, r)

/-- One whole match attempt at a line-start position. -/
def tryMatch (l : List Char) : Option (Nat × List Char × List Char) :=
  match tryHeader l with
  | none => none
  | some (n, afterWs, atStart) =>
      let (body, rest) := takeBody afterWs atStart
      some (n, body, rest)

/-- `re.finditer` over the input: try a match at every line-start
position, emit `(number, body)` pairs, resume after each match (matches
always end at a line start or at end of input).  `fuel` bounds the scan;
every step consumes at least one character, so `l.length + 1` suffices. -/
def findMatchesAux : Nat → Bool → List Char → List (Nat × List Char)
  | 0, _, _ => []
  | fuel + 1, atStart, l =>
      match (if atStart then tryMatch l else none) with
      | some (n, body, rest) => (n, body) :: findMatchesAux fuel true rest
      | none =>
          match l with
          | [] => []
          | c :: cs => findMatchesAux fuel (c = '\n') cs

def findMatches (l : List Char) : List (Nat × List Char) :=
  findMatchesAux (l.length + 1) true l

/-- Lines 88-93: strip each body, keep candidates whose stripped body is
non-empty and longer than 3 characters (the `q_text and len(q_text) > 3`
test; non-emptiness is subsumed by the length bound). -/
def questionCandidates (content : List Char) : List (Nat × List Char) :=
  (findMatches content).filterMap fun p =>
    let q := pyStrip p.2
    if 3 < q.length then some (p.1, q) else none

/-- Line 96: `f"Question {q_num}: {q_text}"`. -/
def renderQuestion (p : Nat × List Char) : String :=
  "Question " ++ toString p.1 ++ ": " ++ String.mk p.2

/-- `re.split(r"\n\n+", content)`: split at each maximal run of two or
more newlines.  Fueled; every recursive call consumes at least one
character. -/
def splitBlankAux : Nat → List Char → List Char → List (List Char)
  | 0, acc, _ => [acc.reverse]
  | fuel + 1, acc, l =>
      match l with
      | [] => [acc.reverse]
      | '\n' :: '\n' :: rest =>
          acc.reverse :: splitBlankAux fuel [] (rest.dropWhile (· = '\n'))
      | c :: rest => splitBlankAux fuel (c :: acc) rest

def splitBlank (l : List Char) : List (List Char) :=
  splitBlankAux (l.length + 1) [] l

/-- Line 100: `[s.strip() for s in re.split(r"\n\n+", all_content) if s.strip()]`. -/
def sectionsOf (content : List Char) : List (List Char) :=
  ((splitBlank content).map pyStrip).filter (· ≠ [])

/-- Line 101: the blank-line fallback; note `enumerate` runs over all
sections and the `len(section) > 20` filter is applied afterwards, so
discarded short sections still advance the displayed number. -/
def fallbackQuestions (content : List Char) : List String :=
  (sectionsOf content).enum.filterMap fun p =>
    if 20 < p.2.length then
      some ("Question " ++ toString (p.1 + 1) ++ ": " ++ String.mk p.2)
    else none

/-- Comparison used for `sorted(extracted, key=lambda x: x[0])`; Python's
sort is stable, which a ≤-insertion sort reproduces exactly. -/
def numLe (a b : Nat × List Char) : Prop := a.1 ≤ b.1

instance : DecidableRel numLe := fun a b => Nat.decLe a.1 b.1

/-- `PastPaperProcessor.extract_questions` (lines 57-103), with the
document list already projected to its `page_content` strings. -/
def extract_questions (docs : List String) : List String :=
  let content := (String.intercalate "\n" docs).toList
  let extracted := questionCandidates content
  let questions := (List.insertionSort numLe extracted).map renderQuestion
  if questions = [] then fallbackQuestions content else questions

/-! ### Session state (`PastPaperSession`, lines 5-51) -/

/-- The dataclass `PastPaperSession`.  `user_answers` and `model_answers`
are Python dicts keyed by question number. -/
structure PastPaperSession where
  unit_code : Option String := none
  year : Option String := none
  current_batch : Nat := 0
  questions : List String := []
  user_answers : List (Nat × String) := []
  model_answers : List (Nat × String) := []
  is_active : Bool := false
  total_questions : Nat := 0
deriving Repr, DecidableEq

/-- `reset` (line 17): `self.__init__()` restores every dataclass default. -/
def PastPaperSession.reset (_ : PastPaperSession) : PastPaperSession := {}

/-- `start_paper` (lines 21-30). -/
def PastPaperSession.start_paper (s : PastPaperSession) (unit_code year : String)
    (questions : List String) : PastPaperSession :=
  { s with
    unit_code := some unit_code
    year := some year
    questions := questions
    total_questions := questions.length
    current_batch := 0
    is_active := true
    user_answers := []
    model_answers := [] }

/-- `get_next_batch` (lines 32-42); also returns the updated session,
since Python mutates `self.current_batch` in place.  The slice
`questions[start_idx:end_idx]` is `(take end_idx).drop start_idx`. -/
def PastPaperSession.get_next_batch (s : PastPaperSession) (batch_size : Nat) :
    (List String × Bool) × PastPaperSession :=
  let start_idx := s.current_batch * batch_size
  let end_idx := min (start_idx + batch_size) s.total_questions
  let batch := (s.questions.take end_idx).drop start_idx
  let has_more := decide (end_idx < s.total_questions)
  ((batch, has_more), { s with current_batch := s.current_batch + 1 })

/-- `get_current_progress` (lines 44-47). -/
def PastPaperSession.get_current_progress (s : PastPaperSession) : String :=
  "Questions " ++ toString (min (s.current_batch * 5) s.total_questions) ++
    "/" ++ toString s.total_questions

/-- `save_answer` (lines 49-51): `self.user_answers[question_num] = answer`. -/
def PastPaperSession.save_answer (s : PastPaperSession) (question_num : Nat)
    (answer : String) : PastPaperSession :=
  { s with user_answers := dictInsert s.user_answers question_num answer }

/-- The spec's `cacheClarification` store operation; in the code the only
write of a generated explanation into the session is the
`session.model_answers[q_index] = answer` upsert of
`_generate_answers_for_batch` (line 425), embedded here. -/
def PastPaperSession.cache_clarification (s : PastPaperSession) (q_index : Nat)
    (text : String) : PastPaperSession :=
  { s with model_answers := dictInsert s.model_answers q_index text }

/-! ### Rendering helpers of the router -/

/-- `"-" * 50`. -/
def dashes : String := String.mk (List.replicate 50 '-')

/-- Python f-string rendering of an `Optional[str]` (`None` prints as
`"None"`). -/
def optStr (o : Option String) : String := o.getD "None"

/-- Python `x or "Unknown"` on an optional string (`None` and `""` are
falsy). -/
def orUnknown (o : Option String) : String :=
  match o with
  | none => "Unknown"
  | some s => if s = "" then "Unknown" else s

/-- `re.sub(rf"^\s*Question\s+{q_index}:\s*", "", raw)` (line 111): the
pattern is anchored at the start of the string (no `re.M`), so it strips
at most one leading `Question <q_index>:` header. -/
def stripQuestionHeader (q_index : Nat) (raw : List Char) : List Char :=
  let l1 := raw.dropWhile isPySpace
  if listStartsWith "Question".toList l1 then
    let l2 := l1.drop 8
    match l2 with
    | c :: _ =>
        if isPySpace c then
          let l3 := l2.dropWhile isPySpace
          let digs := (toString q_index).toList ++ [':']
          if listStartsWith digs l3 then (l3.drop digs.length).dropWhile isPySpace
          else raw
        else raw
    | [] => raw
  else raw

/-- `format_batch` (lines 105-117). -/
def format_batch (questions : List String) (start_num : Nat)
    (answers : Option (List (Nat × String))) : String :=
  let blocks := questions.enum.map fun p =>
    let q_index := start_num + p.1
    let cleaned := pyStrip (stripQuestionHeader q_index p.2.toList)
    let block := "**Question " ++ toString q_index ++ ":**\n" ++ String.mk cleaned ++ "\n"
    match answers with
    | some ans =>
        if ans ≠ [] && dictContains ans q_index then
          block ++ "\n**Answer:**\n" ++ (dictGet ans q_index).getD "" ++ "\n"
        else block
    | none => block
  String.intercalate ("\n" ++ dashes ++ "\n") blocks

/-! ### Dialogue router (`EnhancedPastPaperChain`)

The LLM chains `prompt | self.llm | StrOutputParser()` are oracles;
`none` models `chain.invoke` raising.  Each router result records the
number of generation invocations performed, and a `none` response models
an exception escaping the method (Python's in-place session mutations
performed before the raise are kept in the returned session). -/

structure LlmOracle where
  clarify : String → Option String
  feedback : String → String → Option String

structure RouterResult where
  session : PastPaperSession
  response : Option String
  genCalls : Nat
deriving Repr, DecidableEq

/-- The `intent` dict built by `parse_user_intent` (lines 119-160); the
regex classification itself is abstracted: the embedding quantifies over
every possible classification result. -/
structure ParsedIntent where
  wants_next : Bool := false
  wants_clarification : Bool := false
  has_answer : Bool := false
  wants_stop : Bool := false
  question_num : Option Nat := none
  answer_text : Option String := none
deriving Repr, DecidableEq

/-- `_provide_clarification` (lines 301-334).  Note the falsy test
`not q_num` also rejects ordinal 0, and there is no caching: every valid
request reaches `chain.invoke`. -/
def provide_clarification (gen : String → Option String) (question_num : Option Nat)
    (s : PastPaperSession) : RouterResult :=
  if s.is_active = false then
    ⟨s, some "No active past paper session. Please start one first.", 0⟩
  else
    match question_num with
    | none => ⟨s, some "Please specify a valid question number for clarification.", 0⟩
    | some q_num =>
        if q_num = 0 ∨ s.questions.length < q_num then
          ⟨s, some "Please specify a valid question number for clarification.", 0⟩
        else
          let question := (s.questions.get? (q_num - 1)).getD ""
          match gen question with
          | none => ⟨s, none, 1⟩
          | some clarification =>
              ⟨s, some ("**Clarification and Solution for Question " ++ toString q_num ++
                ":**\n\n" ++ clarification ++
                "\n\n💡 Would you like to attempt this question now?"), 1⟩

/-- `_process_answer` (lines 336-382).  The answer is saved before
`session.questions[q_num - 1]` is read, so an out-of-range ordinal
raises `IndexError` (response `none`) with the answer already recorded;
there is no ordinal validation in this flow. -/
def process_answer (gen : String → String → Option String) (question_num : Option Nat)
    (answer_text : Option String) (s : PastPaperSession) : RouterResult :=
  if s.is_active = false then
    ⟨s, some "No active past paper session. Please start one first.", 0⟩
  else
    match question_num, answer_text with
    | none, _ => ⟨s, some "Please provide both the question number and your answer.", 0⟩
    | _, none => ⟨s, some "Please provide both the question number and your answer.", 0⟩
    | some q_num, some answer =>
        if q_num = 0 ∨ answer = "" then
          ⟨s, some "Please provide both the question number and your answer.", 0⟩
        else
          let s1 := s.save_answer q_num answer
          match s1.questions.get? (q_num - 1) with
          | none => ⟨s1, none, 0⟩
          | some question_text =>
              match gen question_text answer with
              | none => ⟨s1, none, 1⟩
              | some feedback =>
                  ⟨s1, some ("**Your answer for Question " ++ toString q_num ++ ":**\n" ++
                    answer ++ "\n\n**Feedback:**\n" ++ feedback ++
                    "\n\n✅ Answer recorded. Would you like to continue with more questions?"), 1⟩

/-- `_show_next_batch` (lines 275-299): fetches the next batch of 5 and
resets the session when the batch comes back empty. -/
def show_next_batch (s : PastPaperSession) : PastPaperSession × String :=
  if s.is_active = false then
    (s, "No active past paper session. Would you like to start one? Just tell me which paper you'd like to go through.")
  else
    let r := s.get_next_batch 5
    let batch := r.1.1
    let has_more := r.1.2
    let s1 := r.2
    if batch = [] then
      (PastPaperSession.reset s1,
        "You've completed all questions in this past paper! Great job! 🎉\nWould you like to review any answers or start another paper?")
    else
      let start_num := (s1.current_batch - 1) * 5 + 1
      let response := "**Continuing " ++ optStr s1.unit_code ++ " (" ++ optStr s1.year ++
        ") - " ++ s1.get_current_progress ++ "**\n" ++ dashes ++ "\n" ++
        format_batch batch start_num none ++ "\n" ++ dashes ++ "\n" ++
        (if has_more then "\n📝 Ready for more? Type 'next' to continue, or work on these questions first."
         else "\n✅ **These are the final questions!**")
      (s1, response)

/-- The state/batch/hasMore content of `_show_next_batch` for an active
session, parameterized by batch size: `get_next_batch(b)` followed by the
reset-on-empty-batch of lines 282-284 (the completion message of that
branch signals `hasMore = false`). -/
def next_batch_op (b : Nat) (s : PastPaperSession) : PastPaperSession × List String × Bool :=
  let r := s.get_next_batch b
  if r.1.1 = [] then ({}, ([], false)) else (r.2, r.1)

/-- Python `x or "Any"` on an optional string. -/
def orAny (o : Option String) : String :=
  match o with
  | none => "Any"
  | some s => if s = "" then "Any" else s

/-- `_start_new_paper` (lines 218-273) from the point where the retrieved
documents are in hand: the unit-code/year extraction and the two-step
retrieval (lines 221-239) are abstracted into the `unit`, `year` and
`docs` inputs, where `docs` holds the `page_content` of the documents the
retrieval produced. -/
def start_new_paper (docs : List String) (unit year : Option String)
    (s : PastPaperSession) : PastPaperSession × String :=
  if docs = [] then
    (s, "I couldn't find a past paper matching your criteria (Unit: " ++ orAny unit ++
      ", Year: " ++ orAny year ++ "). Please check the unit code and year, or try being more specific.")
  else
    let questions := extract_questions docs
    if questions = [] then
      (s, "I found the past paper but couldn't extract the questions properly. The document might be in an unexpected format.")
    else
      let s1 := s.start_paper (orUnknown unit) (orUnknown year) questions
      let r := s1.get_next_batch 5
      let batch := r.1.1
      let has_more := r.1.2
      let s2 := r.2
      let response := "**Starting " ++ optStr s2.unit_code ++ " (" ++ optStr s2.year ++
        ") Past Paper**\n" ++ "Total questions: " ++ toString s2.total_questions ++ "\n" ++
        dashes ++ "\n" ++ format_batch batch 1 none ++ "\n" ++ dashes ++ "\n" ++
        (if has_more then
          "\n📝 **What would you like to do?**\n• Type 'next' or 'continue' to see the next 5 questions\n• Answer a question (e.g., 'My answer for question 1 is...')\n• Ask for clarification (e.g., 'Can you explain question 3?')\n• Type 'stop' to end the session"
         else
          "\n✅ **That's all the questions!**\nFeel free to attempt any question or ask for help to answer a question.")
      (s2, response)

/-- `_generate_answers_for_batch` (lines 396-425): the one flow with a
try/except around `chain.invoke`, substituting the fixed placeholder, and
the one flow that caches (skips ordinals already in `model_answers`). -/
def generate_answers_for_batch (gen : String → Option String) (questions : List String)
    (start_index : Nat) (s : PastPaperSession) : PastPaperSession :=
  questions.enum.foldl
    (fun s' p =>
      let q_index := start_index + p.1
      if dictContains s'.model_answers q_index then s'
      else
        let answer := match gen p.2 with
          | some a => a
          | none => "(Unable to generate an answer at this time.)"
        s'.cache_clarification q_index answer)
    s

/-- `handle_past_paper_request` (lines 178-203) acting on the
`self.sessions` registry (a Python dict, embedded as a lookup function).
`get_or_create_session` (lines 172-176) inserts a fresh session under the
id when absent; the dispatch then mutates only that session object.  The
utterance regexes (`parse_user_intent`, `_is_new_paper_request`) and the
retrieval are abstracted into the `intent`, `is_new_request`, `docs`,
`unit`, `year` inputs.  A `none` response models an exception escaping
the handler with the in-place mutations retained. -/
def handle_past_paper_request (gen : LlmOracle) (docs : List String)
    (unit year : Option String) (is_new_request : Bool) (intent : ParsedIntent)
    (session_id : String) (sessions : String → Option PastPaperSession) :
    (String → Option PastPaperSession) × Option String :=
  let s := (sessions session_id).getD {}
  let step : PastPaperSession × Option String :=
    if s.is_active = false ∨ is_new_request = true then
      let r := start_new_paper docs unit year s
      (r.1, some r.2)
    else if intent.wants_stop then
      (PastPaperSession.reset s,
        some "Ending past paper session. Good luck with your studies! Feel free to ask any questions or start another paper.")
    else if intent.wants_next then
      let r := show_next_batch s
      (r.1, some r.2)
    else if intent.wants_clarification then
      let r := provide_clarification gen.clarify intent.question_num s
      (r.session, r.response)
    else if intent.has_answer then
      let r := process_answer gen.feedback intent.question_num intent.answer_text s
      (r.session, r.response)
    else
      let r := show_next_batch s
      (r.1, some r.2)
  (fun k => if k = session_id then some step.1 else sessions k, step.2)

/-! ### Shared fixtures and helper lemmas -/

instance : IsTotal (Nat × List Char) numLe :=
  ⟨fun a b => Nat.le_total a.1 b.1⟩

instance : IsTrans (Nat × List Char) numLe :=
  ⟨fun _ _ _ => Nat.le_trans⟩

/-- A one-question active session. -/
def sessionOneQ : PastPaperSession :=
  { questions := ["Question 1: abcd"], is_active := true, total_questions := 1 }

/-- A two-question active session. -/
def sessionTwoQ : PastPaperSession :=
  { questions := ["Question 1: aaaa", "Question 2: bbbb"], is_active := true,
    total_questions := 2 }

/-- A generation oracle that always succeeds. -/
def genOk : String → Option String := fun _ => some "generated explanation"

/-- A generation oracle that always raises. -/
def genFail : String → Option String := fun _ => none

/-- A feedback oracle that always succeeds. -/
def fbOk : String → String → Option String := fun _ _ => some "generated feedback"

/-- A feedback oracle that always raises. -/
def fbFail : String → String → Option String := fun _ _ => none

/-- Shorthand for the concatenated content of a document list. -/
def contentOf (docs : List String) : List Char :=
  (String.intercalate "\n" docs).toList

theorem insertionSort_eq_nil_iff (l : List (Nat × List Char)) :
    List.insertionSort numLe l = [] ↔ l = [] := by
  constructor
  · intro h
    have hlen := (List.perm_insertionSort numLe l).length_eq
    rw [h] at hlen
    exact List.length_eq_zero.mp hlen.symm
  · intro h
    rw [h]
    rfl

theorem extract_questions_eq (docs : List String) :
    extract_questions docs =
      if questionCandidates (contentOf docs) = [] then fallbackQuestions (contentOf docs)
      else (List.insertionSort numLe (questionCandidates (contentOf docs))).map renderQuestion := by
  unfold extract_questions contentOf
  by_cases h : questionCandidates (String.intercalate "\n" docs).toList = [] <;>
    simp [h, List.map_eq_nil_iff, insertionSort_eq_nil_iff]

/-! ### C2 — rendered question numbers -/

/-- C2 counterexample: on markers `2.` and `5.` the code renders the
literal parsed numbers `2` and `5`, not the 1-based ranks `1` and `2`
the claim requires. -/
theorem segment_rank_numbering_cex :
    extract_questions ["2. aaaa\n5. bbbb"] = ["Question 2: aaaa", "Question 5: bbbb"] ∧
    extract_questions ["2. aaaa\n5. bbbb"] ≠ ["Question 1: aaaa", "Question 2: bbbb"] := by
  decide

/-- C2 amended: `segment` sorts the surviving candidates by the numeric
value of their parsed marker and prefixes each question with
`Question <m>: ` where `m` is the *literal parsed marker number*; so the
rendered numbers are the parsed marker numbers in ascending order (a
permutation of the candidates' numbers), not necessarily `1..N`. -/
theorem segment_sorted_parsed_numbers (docs : List String)
    (hne : questionCandidates (contentOf docs) ≠ []) :
    extract_questions docs =
      (List.insertionSort numLe (questionCandidates (contentOf docs))).map renderQuestion ∧
    List.Sorted (· ≤ ·)
      ((List.insertionSort numLe (questionCandidates (contentOf docs))).map (fun p => p.1)) ∧
    ((List.insertionSort numLe (questionCandidates (contentOf docs))).map (fun p => p.1)).Perm
      ((questionCandidates (contentOf docs)).map (fun p => p.1)) := by
  refine ⟨?_, ?_, ?_⟩
  · rw [extract_questions_eq docs, if_neg hne]
  · exact List.Pairwise.map _ (fun a b h => h)
      (List.sorted_insertionSort numLe (questionCandidates (contentOf docs)))
  · exact List.Perm.map _ (List.perm_insertionSort numLe (questionCandidates (contentOf docs)))

/-- Witness for `segment_sorted_parsed_numbers` at `docs = ["1. abcd"]`. -/
theorem segment_sorted_parsed_numbers_witness :
    questionCandidates (contentOf ["1. abcd"]) ≠ [] ∧
    (extract_questions ["1. abcd"] =
      (List.insertionSort numLe (questionCandidates (contentOf ["1. abcd"]))).map renderQuestion ∧
    List.Sorted (· ≤ ·)
      ((List.insertionSort numLe (questionCandidates (contentOf ["1. abcd"]))).map (fun p => p.1)) ∧
    ((List.insertionSort numLe (questionCandidates (contentOf ["1. abcd"]))).map (fun p => p.1)).Perm
      ((questionCandidates (contentOf ["1. abcd"])).map (fun p => p.1))) :=
  ⟨by decide, segment_sorted_parsed_numbers ["1. abcd"] (by decide)⟩

/-! ### C5 — convention selection -/

/-- C5 counterexample: in `"Question 1: aaaa\n2) bbbb"` the explicit
convention matches, yet the bare marker `2)` is still treated as a
top-level boundary, producing two questions instead of the single
question the claimed priority order requires. -/
theorem single_scan_no_priority_cex :
    extract_questions ["Question 1: aaaa\n2) bbbb"] =
      ["Question 1: aaaa", "Question 2: bbbb"] ∧
    (extract_questions ["Question 1: aaaa\n2) bbbb"]).length ≠ 1 := by
  decide

/-- C5 amended: `segment` uses one combined pattern that recognizes the
explicit (`Question <n>:`/`Q<n>:`) and bare (`<n>.`, `<n>)`, `(<n>)`)
markers simultaneously in a single pass — a bare numeric marker is a
top-level boundary even when explicit markers match elsewhere — and the
blank-line fallback applies exactly when that combined scan yields zero
surviving candidates. -/
theorem single_scan_selection (docs : List String) :
    extract_questions docs =
      (if questionCandidates (contentOf docs) = []
       then fallbackQuestions (contentOf docs)
       else (List.insertionSort numLe (questionCandidates (contentOf docs))).map renderQuestion) ∧
    extract_questions ["Q1: aaaa\n(2) bbbb\n3. cccc"] =
      ["Question 1: aaaa", "Question 2: bbbb", "Question 3: cccc"] :=
  ⟨extract_questions_eq docs, by decide⟩

/-! ### C1 / C8 — batching -/

theorem nbop_reset (b : Nat) (s : PastPaperSession)
    (ht : s.total_questions = s.questions.length)
    (h : s.questions.length ≤ s.current_batch * b) :
    next_batch_op b s = ({}, ([], false)) := by
  unfold next_batch_op PastPaperSession.get_next_batch
  have hbatch : (s.questions.take (min (s.current_batch * b + b) s.total_questions)).drop
      (s.current_batch * b) = [] := by
    rw [List.drop_eq_nil_iff, List.length_take, ht]
    exact le_trans (min_le_right _ _) h
  simp only [hbatch]
  simp

theorem nbop_advance (b : Nat) (s : PastPaperSession)
    (ht : s.total_questions = s.questions.length)
    (h : s.current_batch * b < s.questions.length) (hb : 0 < b) :
    next_batch_op b s =
      ({ s with current_batch := s.current_batch + 1 },
       ((s.questions.take (min (s.current_batch * b + b) s.questions.length)).drop
          (s.current_batch * b),
        decide (min (s.current_batch * b + b) s.questions.length < s.questions.length))) := by
  unfold next_batch_op PastPaperSession.get_next_batch
  have hbatch : (s.questions.take (min (s.current_batch * b + b) s.total_questions)).drop
      (s.current_batch * b) ≠ [] := by
    intro hc
    rw [List.drop_eq_nil_iff, List.length_take, ht] at hc
    have h1 : min (min (s.current_batch * b + b) s.questions.length) s.questions.length
        = min (s.current_batch * b + b) s.questions.length :=
      min_eq_left (min_le_right _ _)
    rw [h1] at hc
    have h2 : s.current_batch * b + 1 ≤ min (s.current_batch * b + b) s.questions.length :=
      le_min (by omega) (by omega)
    exact absurd (le_trans h2 hc) (by omega)
  simp only [ht] at hbatch ⊢
  simp [hbatch]

theorem nbop_zero_batch (s : PastPaperSession) : next_batch_op 0 s = ({}, ([], false)) := by
  unfold next_batch_op PastPaperSession.get_next_batch
  simp

/-- C1: for an active session, `nextBatch(b)` with `b > 0` resets to the
EMPTY state and returns an empty batch with `hasMore = false` when
`cursor*b ≥ total`; otherwise it increments the cursor by one and returns
`questions[cursor*b : min(cursor*b + b, total)]` with
`hasMore = (min(cursor*b + b, total) < total)`; and a call made after a
final non-empty batch (`hasMore = false`) leaves the session EMPTY. -/
theorem next_batch_semantics (b : Nat) (s : PastPaperSession) (hb : 0 < b)
    (ht : s.total_questions = s.questions.length) :
    (s.questions.length ≤ s.current_batch * b → next_batch_op b s = ({}, ([], false))) ∧
    (s.current_batch * b < s.questions.length →
      next_batch_op b s =
        ({ s with current_batch := s.current_batch + 1 },
         ((s.questions.take (min (s.current_batch * b + b) s.questions.length)).drop
            (s.current_batch * b),
          decide (min (s.current_batch * b + b) s.questions.length < s.questions.length)))) ∧
    ((next_batch_op b s).2.1 ≠ [] → (next_batch_op b s).2.2 = false →
      (next_batch_op b (next_batch_op b s).1).1 = ({} : PastPaperSession)) := by
  refine ⟨fun h => nbop_reset b s ht h, fun h => nbop_advance b s ht h hb, fun hne hm => ?_⟩
  by_cases h : s.current_batch * b < s.questions.length
  · rw [nbop_advance b s ht h hb] at hne hm ⊢
    have hmle : s.questions.length ≤ s.current_batch * b + b := by
      have h1 := of_decide_eq_false hm
      have h2 : min (s.current_batch * b + b) s.questions.length ≤ s.current_batch * b + b :=
        min_le_left _ _
      omega
    have hsucc : (s.current_batch + 1) * b = s.current_batch * b + b := Nat.succ_mul _ _
    have := nbop_reset b { s with current_batch := s.current_batch + 1 } (by simpa using ht)
      (by simpa [hsucc] using hmle)
    rw [this]
  · exfalso
    apply hne
    rw [nbop_reset b s ht (le_of_not_lt h)]

/-- Witness for `next_batch_semantics` at a 2-question session with
batch size 1. -/
theorem next_batch_semantics_witness :
    (0 < 1 ∧ sessionTwoQ.total_questions = sessionTwoQ.questions.length) ∧
    ((sessionTwoQ.questions.length ≤ sessionTwoQ.current_batch * 1 →
      next_batch_op 1 sessionTwoQ = ({}, ([], false))) ∧
    (sessionTwoQ.current_batch * 1 < sessionTwoQ.questions.length →
      next_batch_op 1 sessionTwoQ =
        ({ sessionTwoQ with current_batch := sessionTwoQ.current_batch + 1 },
         ((sessionTwoQ.questions.take
             (min (sessionTwoQ.current_batch * 1 + 1) sessionTwoQ.questions.length)).drop
            (sessionTwoQ.current_batch * 1),
          decide (min (sessionTwoQ.current_batch * 1 + 1) sessionTwoQ.questions.length <
            sessionTwoQ.questions.length)))) ∧
    ((next_batch_op 1 sessionTwoQ).2.1 ≠ [] → (next_batch_op 1 sessionTwoQ).2.2 = false →
      (next_batch_op 1 (next_batch_op 1 sessionTwoQ).1).1 = ({} : PastPaperSession))) :=
  ⟨⟨by decide, by decide⟩, next_batch_semantics 1 sessionTwoQ (by decide) (by decide)⟩

/-- The session states reachable by any sequence of the store operations
with batch size `b`: `startPaper`, `nextBatch` (as performed by
`_show_next_batch`), `recordAnswer` (`save_answer`), `cacheClarification`
(the `model_answers` upsert), and `reset`, from the freshly-created
session. -/
inductive ReachableSession (b : Nat) : PastPaperSession → Prop where
  | init : ReachableSession b {}
  | start_paper (s : PastPaperSession) (u y : String) (qs : List String) :
      ReachableSession b s → ReachableSession b (s.start_paper u y qs)
  | next_batch (s : PastPaperSession) :
      ReachableSession b s → ReachableSession b (next_batch_op b s).1
  | record_answer (s : PastPaperSession) (q : Nat) (a : String) :
      ReachableSession b s → ReachableSession b (s.save_answer q a)
  | cache (s : PastPaperSession) (q : Nat) (t : String) :
      ReachableSession b s → ReachableSession b (s.cache_clarification q t)
  | reset (s : PastPaperSession) :
      ReachableSession b s → ReachableSession b s.reset

/-- C8: in every reachable state, `0 ≤ cursor*b ≤ questions.length + b`
(and the stored total matches the question list), so repeated `nextBatch`
calls past the end never drive the cursor further. -/
theorem cursor_invariant (b : Nat) (s : PastPaperSession) (h : ReachableSession b s) :
    s.total_questions = s.questions.length ∧
    0 ≤ s.current_batch * b ∧ s.current_batch * b ≤ s.questions.length + b := by
  induction h with
  | init => exact ⟨rfl, Nat.zero_le _, by simp⟩
  | start_paper s u y qs hs ih => simp [PastPaperSession.start_paper]
  | next_batch s hs ih =>
      rcases Nat.eq_zero_or_pos b with hb | hb
      · subst hb
        rw [nbop_zero_batch s]
        exact ⟨rfl, Nat.zero_le _, by simp⟩
      · by_cases hc : s.questions.length ≤ s.current_batch * b
        · rw [nbop_reset b s ih.1 hc]
          exact ⟨rfl, Nat.zero_le _, by simp⟩
        · rw [nbop_advance b s ih.1 (lt_of_not_le hc) hb]
          refine ⟨by simpa using ih.1, Nat.zero_le _, ?_⟩
          have hsucc : (s.current_batch + 1) * b = s.current_batch * b + b := Nat.succ_mul _ _
          have hlt := lt_of_not_le hc
          simp only []
          omega
  | record_answer s q a hs ih => simpa [PastPaperSession.save_answer] using ih
  | cache s q t hs ih => simpa [PastPaperSession.cache_clarification] using ih
  | reset s hs ih => exact ⟨rfl, Nat.zero_le _, by simp [PastPaperSession.reset]⟩

/-- Witness for `cursor_invariant`: start a 1-question paper and step
past the end twice with batch size 5. -/
theorem cursor_invariant_witness :
    ((next_batch_op 5 (next_batch_op 5
        (PastPaperSession.start_paper {} "CSC231" "2024" ["Question 1: abcd"])).1).1.total_questions
      = (next_batch_op 5 (next_batch_op 5
        (PastPaperSession.start_paper {} "CSC231" "2024" ["Question 1: abcd"])).1).1.questions.length) ∧
    0 ≤ (next_batch_op 5 (next_batch_op 5
        (PastPaperSession.start_paper {} "CSC231" "2024" ["Question 1: abcd"])).1).1.current_batch * 5 ∧
    (next_batch_op 5 (next_batch_op 5
        (PastPaperSession.start_paper {} "CSC231" "2024" ["Question 1: abcd"])).1).1.current_batch * 5
      ≤ (next_batch_op 5 (next_batch_op 5
        (PastPaperSession.start_paper {} "CSC231" "2024" ["Question 1: abcd"])).1).1.questions.length + 5 :=
  cursor_invariant 5 _
    (ReachableSession.next_batch _ (ReachableSession.next_batch _
      (ReachableSession.start_paper _ "CSC231" "2024" ["Question 1: abcd"] ReachableSession.init)))

/-! ### C3 — clarification caching -/

/-- C3 counterexample: two successive clarification requests for the same
valid ordinal invoke the generation capability twice — there is no cache,
so the total is not at most one. -/
theorem clarification_regenerates_cex :
    (provide_clarification genOk (some 1) sessionOneQ).genCalls +
      (provide_clarification genOk (some 1)
        (provide_clarification genOk (some 1) sessionOneQ).session).genCalls = 2 ∧
    ¬((provide_clarification genOk (some 1) sessionOneQ).genCalls +
      (provide_clarification genOk (some 1)
        (provide_clarification genOk (some 1) sessionOneQ).session).genCalls ≤ 1) := by
  decide

/-- C3 amended: every clarification request for a valid ordinal on an
active session invokes the generation capability exactly once and leaves
the session unchanged — nothing is cached, so repeating the request
invokes it exactly once again (two invocations in total). -/
theorem clarification_no_cache (gen : String → Option String) (q : Nat)
    (s : PastPaperSession) (hact : s.is_active = true) (hq0 : q ≠ 0)
    (hqle : q ≤ s.questions.length) :
    (provide_clarification gen (some q) s).session = s ∧
    (provide_clarification gen (some q) s).genCalls = 1 ∧
    (provide_clarification gen (some q)
      (provide_clarification gen (some q) s).session).genCalls = 1 := by
  have key : ∀ t : PastPaperSession, t.is_active = true → q ≤ t.questions.length →
      (provide_clarification gen (some q) t).session = t ∧
      (provide_clarification gen (some q) t).genCalls = 1 := by
    intro t hta htq
    have hcond : ¬(q = 0 ∨ t.questions.length < q) := by omega
    unfold provide_clarification
    rw [hta]
    rcases hg : gen (t.questions[q - 1]?.getD "") with _ | c <;>
      simp [hcond, hg]
  obtain ⟨h1, h2⟩ := key s hact hqle
  refine ⟨h1, h2, ?_⟩
  rw [h1]
  exact (key s hact hqle).2

/-- Witness for `clarification_no_cache` at ordinal 1 of a 1-question
session. -/
theorem clarification_no_cache_witness :
    (sessionOneQ.is_active = true ∧ (1 : Nat) ≠ 0 ∧ 1 ≤ sessionOneQ.questions.length) ∧
    ((provide_clarification genOk (some 1) sessionOneQ).session = sessionOneQ ∧
     (provide_clarification genOk (some 1) sessionOneQ).genCalls = 1 ∧
     (provide_clarification genOk (some 1)
       (provide_clarification genOk (some 1) sessionOneQ).session).genCalls = 1) :=
  ⟨⟨by decide, by decide, by decide⟩,
    clarification_no_cache genOk 1 sessionOneQ (by decide) (by decide) (by decide)⟩

/-! ### C4 — out-of-range ordinal on the ANSWER flow -/

/-- C4: on a 2-question active session, an ANSWER intent with ordinal 3
does not produce an `InvalidOrdinal` guidance message; the handler saves
`answers[3]` and then the read `session.questions[2]` raises `IndexError`
(no response), leaving the invalid key recorded — the `[1, total]` key
invariant the claim relies on is broken. -/
theorem answer_overflow_crash :
    (process_answer fbOk (some 3) (some "X") sessionTwoQ).response = none ∧
    dictContains
      (process_answer fbOk (some 3) (some "X") sessionTwoQ).session.user_answers 3 = true ∧
    (process_answer fbOk (some 3) (some "X") sessionTwoQ).genCalls = 0 ∧
    (process_answer fbOk (some 3) (some "X") sessionTwoQ).session.user_answers
      = sessionTwoQ.user_answers ++ [(3, "X")] := by
  decide

/-! ### C6 — generation failure in clarification/feedback flows -/

/-- C6 counterexample: with a failing generation capability, the
clarification and answer-feedback flows produce no response at all (the
exception escapes the turn); no "unable to generate" placeholder is
substituted in these flows. -/
theorem generation_failure_propagates_cex :
    (provide_clarification genFail (some 1) sessionOneQ).response = none ∧
    (provide_clarification genFail (some 1) sessionOneQ).genCalls = 1 ∧
    (process_answer fbFail (some 1) (some "X") sessionOneQ).response = none := by
  decide

/-- C6 amended: when the generation capability raises, the clarification
and answer-feedback flows propagate the failure out of the turn (no
placeholder, no response); the session is not otherwise corrupted — the
clarification flow leaves it unchanged and the answer flow keeps the
answer recorded before the call.  The fixed placeholder
`(Unable to generate an answer at this time.)` is substituted only in the
batch model-answer helper `_generate_answers_for_batch`. -/
theorem generation_failure_propagates (gen : String → Option String)
    (fb : String → String → Option String) (q : Nat) (a : String)
    (s s' : PastPaperSession) (i : Nat) (qt : String)
    (hact : s.is_active = true) (hq0 : q ≠ 0) (hqle : q ≤ s.questions.length)
    (ha : a ≠ "")
    (hgen : gen (s.questions[q - 1]?.getD "") = none)
    (hfb : ∀ x, fb x a = none)
    (hnc : dictContains s'.model_answers i = false) :
    (provide_clarification gen (some q) s).response = none ∧
    (provide_clarification gen (some q) s).session = s ∧
    (process_answer fb (some q) (some a) s).response = none ∧
    (process_answer fb (some q) (some a) s).session = s.save_answer q a ∧
    generate_answers_for_batch (fun _ => none) [qt] i s' =
      s'.cache_clarification i "(Unable to generate an answer at this time.)" := by
  have hcond : ¬(q = 0 ∨ s.questions.length < q) := by omega
  have hcond2 : ¬(q = 0 ∨ a = "") := by
    intro hc
    rcases hc with hc | hc
    · exact hq0 hc
    · exact ha hc
  refine ⟨?_, ?_, ?_, ?_, ?_⟩
  · unfold provide_clarification
    rw [hact]
    simp [hcond, hgen]
  · unfold provide_clarification
    rw [hact]
    simp [hcond, hgen]
  · unfold process_answer
    rw [hact]
    have hlt : q - 1 < s.questions.length := by omega
    obtain ⟨x, hx⟩ : ∃ x, s.questions[q - 1]? = some x := by
      rw [List.getElem?_eq_getElem hlt]
      exact ⟨_, rfl⟩
    simp [hcond2, PastPaperSession.save_answer, hx, hfb]
  · unfold process_answer
    rw [hact]
    have hlt : q - 1 < s.questions.length := by omega
    obtain ⟨x, hx⟩ : ∃ x, s.questions[q - 1]? = some x := by
      rw [List.getElem?_eq_getElem hlt]
      exact ⟨_, rfl⟩
    simp [hcond2, PastPaperSession.save_answer, hx, hfb]
  · unfold generate_answers_for_batch
    simp [List.enum, hnc]

/-- Witness for `generation_failure_propagates` at ordinal 1 of a
1-question session with always-failing oracles. -/
theorem generation_failure_propagates_witness :
    (sessionOneQ.is_active = true ∧ (1 : Nat) ≠ 0 ∧ 1 ≤ sessionOneQ.questions.length ∧
     ("X" : String) ≠ "" ∧
     genFail (sessionOneQ.questions[0]?.getD "") = none ∧
     dictContains (PastPaperSession.model_answers {}) 1 = false) ∧
    ((provide_clarification genFail (some 1) sessionOneQ).response = none ∧
     (provide_clarification genFail (some 1) sessionOneQ).session = sessionOneQ ∧
     (process_answer fbFail (some 1) (some "X") sessionOneQ).response = none ∧
     (process_answer fbFail (some 1) (some "X") sessionOneQ).session =
       sessionOneQ.save_answer 1 "X" ∧
     generate_answers_for_batch (fun _ => none) ["Q"] 1 ({} : PastPaperSession) =
       PastPaperSession.cache_clarification {} 1 "(Unable to generate an answer at this time.)") :=
  ⟨⟨by decide, by decide, by decide, by decide, rfl, by decide⟩,
    generation_failure_propagates genFail fbFail 1 "X" sessionOneQ {} 1 "Q"
      (by decide) (by decide) (by decide) (by decide) rfl (fun _ => rfl) (by decide)⟩

/-! ### C7 — starting a paper -/

/-- C7: when segmentation yields no questions, `_start_new_paper` signals
the format-mismatch error and leaves the session untouched (never calling
`start_paper`); and `start_paper` itself resets the cursor to 0, clears
both answer maps, and activates the session. -/
theorem start_paper_guard (docs : List String) (unit year : Option String)
    (s : PastPaperSession) (u y : String) (qs : List String)
    (hd : docs ≠ []) (hext : extract_questions docs = []) (hqs : qs ≠ []) :
    start_new_paper docs unit year s =
      (s, "I found the past paper but couldn't extract the questions properly. The document might be in an unexpected format.") ∧
    ((s.start_paper u y qs).current_batch = 0 ∧
     (s.start_paper u y qs).user_answers = [] ∧
     (s.start_paper u y qs).model_answers = [] ∧
     (s.start_paper u y qs).is_active = true ∧
     (s.start_paper u y qs).questions = qs ∧
     (s.start_paper u y qs).total_questions = qs.length) := by
  refine ⟨?_, rfl, rfl, rfl, rfl, rfl, rfl⟩
  unfold start_new_paper
  simp [hd, hext]

/-- Witness for `start_paper_guard`: a document with no extractable
questions, and a 1-question start. -/
theorem start_paper_guard_witness :
    ((["xy"] : List String) ≠ [] ∧ extract_questions ["xy"] = [] ∧
      (["Question 1: abcd"] : List String) ≠ []) ∧
    (start_new_paper ["xy"] none none {} =
      ({}, "I found the past paper but couldn't extract the questions properly. The document might be in an unexpected format.") ∧
    ((PastPaperSession.start_paper {} "CSC231" "2024" ["Question 1: abcd"]).current_batch = 0 ∧
     (PastPaperSession.start_paper {} "CSC231" "2024" ["Question 1: abcd"]).user_answers = [] ∧
     (PastPaperSession.start_paper {} "CSC231" "2024" ["Question 1: abcd"]).model_answers = [] ∧
     (PastPaperSession.start_paper {} "CSC231" "2024" ["Question 1: abcd"]).is_active = true ∧
     (PastPaperSession.start_paper {} "CSC231" "2024" ["Question 1: abcd"]).questions
       = ["Question 1: abcd"] ∧
     (PastPaperSession.start_paper {} "CSC231" "2024" ["Question 1: abcd"]).total_questions
       = (["Question 1: abcd"] : List String).length)) :=
  ⟨⟨by decide, by decide, by decide⟩,
    start_paper_guard ["xy"] none none {} "CSC231" "2024" ["Question 1: abcd"]
      (by decide) (by decide) (by decide)⟩

/-! ### C9 — per-session isolation of `handle` -/

/-- C9: a `handle` call for session id `sid` leaves every other key of
the session registry untouched, and its response and its effect on `sid`
depend only on the registry's value at `sid` (so it reads no other
session). -/
theorem handle_session_isolation (gen : LlmOracle) (docs : List String)
    (unit year : Option String) (is_new : Bool) (intent : ParsedIntent)
    (sid other : String) (r r' : String → Option PastPaperSession)
    (hne : other ≠ sid) (hsame : r sid = r' sid) :
    (handle_past_paper_request gen docs unit year is_new intent sid r).1 other = r other ∧
    (handle_past_paper_request gen docs unit year is_new intent sid r).2 =
      (handle_past_paper_request gen docs unit year is_new intent sid r').2 ∧
    (handle_past_paper_request gen docs unit year is_new intent sid r).1 sid =
      (handle_past_paper_request gen docs unit year is_new intent sid r').1 sid := by
  unfold handle_past_paper_request
  simp [hne, hsame]

/-- Witness for `handle_session_isolation` on ids "cli" vs "api" over the
empty registry. -/
theorem handle_session_isolation_witness :
    (("api" : String) ≠ "cli" ∧
      (fun _ => (none : Option PastPaperSession)) "cli"
        = (fun _ => (none : Option PastPaperSession)) "cli") ∧
    ((handle_past_paper_request ⟨genOk, fbOk⟩ [] none none false {} "cli"
        (fun _ => none)).1 "api" = (fun _ => (none : Option PastPaperSession)) "api" ∧
    (handle_past_paper_request ⟨genOk, fbOk⟩ [] none none false {} "cli"
        (fun _ => none)).2 =
      (handle_past_paper_request ⟨genOk, fbOk⟩ [] none none false {} "cli"
        (fun _ => none)).2 ∧
    (handle_past_paper_request ⟨genOk, fbOk⟩ [] none none false {} "cli"
        (fun _ => none)).1 "cli" =
      (handle_past_paper_request ⟨genOk, fbOk⟩ [] none none false {} "cli"
        (fun _ => none)).1 "cli") :=
  ⟨⟨by decide, rfl⟩,
    handle_session_isolation ⟨genOk, fbOk⟩ [] none none false {} "cli" "api"
      (fun _ => none) (fun _ => none) (by decide) rfl⟩

/-! ### C10 — fallback numbering counts discarded short blocks -/

/-- C10: in the blank-line fallback, a retained block is numbered by its
1-based position among all non-empty blocks (short discarded blocks
included), every produced question has that shape, and concretely a short
first block yields `Question 2: ...` with no `Question 1`. -/
theorem fallback_numbering (content : List Char) (i : Nat) (s : List Char)
    (hget : (sectionsOf content).get? i = some s) (hlen : 20 < s.length) :
    ("Question " ++ toString (i + 1) ++ ": " ++ String.mk s) ∈ fallbackQuestions content ∧
    (∀ q ∈ fallbackQuestions content, ∃ j t, (sectionsOf content).get? j = some t ∧
      20 < t.length ∧ q = "Question " ++ toString (j + 1) ++ ": " ++ String.mk t) ∧
    extract_questions ["ab\n\ncccccccccccccccccccccccc"]
      = ["Question 2: cccccccccccccccccccccccc"] := by
  refine ⟨?_, ?_, by decide⟩
  · unfold fallbackQuestions
    rw [List.mem_filterMap]
    refine ⟨(i, s), ?_, ?_⟩
    · exact List.mem_enum_iff_get?.mpr hget
    · simp [hlen]
  · intro q hq
    unfold fallbackQuestions at hq
    rw [List.mem_filterMap] at hq
    obtain ⟨⟨j, t⟩, hmem, hf⟩ := hq
    have hjt : (sectionsOf content).get? j = some t := List.mem_enum_iff_get?.mp hmem
    by_cases hl : 20 < t.length
    · refine ⟨j, t, hjt, hl, ?_⟩
      simp [hl] at hf
      exact hf.symm
    · simp [hl] at hf

/-- Witness for `fallback_numbering`: a 2-character block followed by a
24-character block. -/
theorem fallback_numbering_witness :
    ((sectionsOf ("ab\n\ncccccccccccccccccccccccc".toList)).get? 1
        = some ("cccccccccccccccccccccccc".toList) ∧
      20 < ("cccccccccccccccccccccccc".toList).length) ∧
    (("Question " ++ toString (1 + 1) ++ ": " ++
        String.mk ("cccccccccccccccccccccccc".toList))
      ∈ fallbackQuestions ("ab\n\ncccccccccccccccccccccccc".toList) ∧
    (∀ q ∈ fallbackQuestions ("ab\n\ncccccccccccccccccccccccc".toList), ∃ j t,
      (sectionsOf ("ab\n\ncccccccccccccccccccccccc".toList)).get? j = some t ∧
      20 < t.length ∧ q = "Question " ++ toString (j + 1) ++ ": " ++ String.mk t) ∧
    extract_questions ["ab\n\ncccccccccccccccccccccccc"]
      = ["Question 2: cccccccccccccccccccccccc"]) :=
  ⟨⟨by decide, by decide⟩,
    fallback_numbering ("ab\n\ncccccccccccccccccccccccc".toList) 1
      ("cccccccccccccccccccccccc".toList) (by decide) (by decide)⟩

end RagStudy
